import Mathlib

/-!
Verification of the subscription-plans generation pipeline
(`subscription_plans` Python package): a shallow embedding of the
retriever (`retrieval.py`), the validator (`validator.py` together with the
JSON schema of `schema.py` and the typed models of `models.py`) and the
generation pipeline (`pipeline.py`), with theorems settling the frozen
claims about the natural-language specification.

Modelling conventions:
* YAML/JSON payloads are `JValue` trees; Python numbers (int and float
  collapsed) are `Rat`, so the non-finite floats `.inf`/`.nan` are outside
  the embedding.  Python dicts are ordered association lists (`JObj`).
* The external YAML parser (`yaml.safe_load`) and the external LLM
  transport are oracles: each scripted LLM step supplies the raw text and
  the parse outcome of that text.  All logic of the repository itself
  (parse-result classification, validation, retry loop, prompt
  composition, merging, formatting) is embedded from the source.
* Python exceptions are represented explicitly: `PlanGenerationError`
  versus any other uncaught exception (`AttributeError` from the metadata
  merge, pydantic `ValidationError`).
-/

mutual
/-- JSON/YAML value as produced by `yaml.safe_load`: null, bool, number
(Python int/float collapsed into `Rat`), string, array, ordered mapping. -/
inductive JValue where
  | jnull
  | jbool (b : Bool)
  | jnum (q : Rat)
  | jstr (s : String)
  | jarr (xs : JArr)
  | jobj (fs : JObj)
/-- Array of JSON values (isomorphic to `List JValue`; kept mutual so that
all recursions over values are structural). -/
inductive JArr where
  | nil
  | cons (v : JValue) (rest : JArr)
/-- Ordered string-keyed mapping, the embedding of a Python `dict`. -/
inductive JObj where
  | nil
  | cons (k : String) (v : JValue) (rest : JObj)
end

/-- First value stored under `key`, the embedding of `dict.__getitem__`
(Python dicts have unique keys, so "first" is exact). -/
def JObj.lookup : JObj → String → Option JValue
  | .nil, _ => none
  | .cons k v rest, key => if k = key then some v else JObj.lookup rest key

/-- Python `d[key] = v`: replace in place if the key exists (keeping its
position), otherwise append at the end. -/
def JObj.set : JObj → String → JValue → JObj
  | .nil, key, v => .cons key v .nil
  | .cons k v0 rest, key, v =>
    if k = key then .cons k v rest else .cons k v0 (JObj.set rest key v)

/-- Python `d.update(u)`: assign every binding of `u` into `d`, in the
iteration order of `u`. -/
def JObj.update (d : JObj) : JObj → JObj
  | .nil => d
  | .cons k v rest => JObj.update (d.set k v) rest

/-- Keys of the mapping in order. -/
def JObj.keys : JObj → List String
  | .nil => []
  | .cons k _ rest => k :: JObj.keys rest

def JObj.isEmpty : JObj → Bool
  | .nil => true
  | .cons _ _ _ => false

def JArr.toList : JArr → List JValue
  | .nil => []
  | .cons v rest => v :: JArr.toList rest

def JObj.toList : JObj → List (String × JValue)
  | .nil => []
  | .cons k v rest => (k, v) :: JObj.toList rest

/-- The apostrophe character (spelled via its code point). -/
def squote : Char := Char.ofNat 39

/-- Escape one character the way Python `repr` does inside a string quoted
by `q` (simplified: backslash, the quote, and common control characters). -/
def pyEscChar (q : Char) (c : Char) : String :=
  if c = '\\' then "\\\\"
  else if c = q then "\\" ++ String.mk [q]
  else if c = '\n' then "\\n"
  else if c = '\r' then "\\r"
  else if c = '\t' then "\\t"
  else String.mk [c]

/-- Python `repr` of a string: single-quoted unless the string contains a
single quote and no double quote. -/
def pyReprStr (s : String) : String :=
  if s.data.contains squote && !(s.data.contains '"') then
    "\"" ++ String.join (s.data.map (pyEscChar '"')) ++ "\""
  else
    String.mk [squote] ++ String.join (s.data.map (pyEscChar squote)) ++ String.mk [squote]

/-- Repeated string (used for zero padding of decimals). -/
def strRepeat (s : String) : Nat → String
  | 0 => ""
  | n + 1 => s ++ strRepeat s n

/-- Decimal rendering of `n` scaled down by `10 ^ k` (the fraction digits
are zero padded); `k = 0` renders the integer itself. -/
def decString (n : Nat) (k : Nat) : String :=
  if k = 0 then toString n
  else
    let intPart := n / 10 ^ k
    let fracPart := n % 10 ^ k
    let fracStr := toString fracPart
    toString intPart ++ "." ++ strRepeat "0" (k - fracStr.length) ++ fracStr

/-- Smallest `k ≤ 30` with `den ∣ 10 ^ k`, if any: the length of the
terminating decimal expansion. -/
def decExponent (den : Nat) : Option Nat :=
  (List.range 31).find? (fun k => 10 ^ k % den = 0)

/-- Python `repr` of a number.  The repository's payloads carry YAML ints
and floats; both are embedded as `Rat`, rendered as an integer when the
denominator is 1 and as a terminating decimal otherwise (YAML floats have
terminating binary, hence decimal, expansions; the `a/b` fallback is for
unreachable non-terminating rationals). -/
def pyReprNum (q : Rat) : String :=
  let sign := if q < 0 then "-" else ""
  let n := q.num.natAbs
  if q.den = 1 then sign ++ toString n
  else
    match decExponent q.den with
    | some k => sign ++ decString (n * (10 ^ k / q.den)) k
    | none => sign ++ toString n ++ "/" ++ toString q.den

mutual
/-- Python `repr` of a JSON value (simplified faithfully enough for the
validator's message interpolation: `None`/`True`/`False`, quoted strings,
bracketed lists, braced dicts). -/
def pyRepr : JValue → String
  | .jnull => "None"
  | .jbool b => if b then "True" else "False"
  | .jnum q => pyReprNum q
  | .jstr s => pyReprStr s
  | .jarr xs => "[" ++ pyReprArr xs ++ "]"
  | .jobj fs => "\x7b" ++ pyReprObj fs ++ "\x7d"
/-- Comma-joined reprs of an array's elements. -/
def pyReprArr : JArr → String
  | .nil => ""
  | .cons v .nil => pyRepr v
  | .cons v rest => pyRepr v ++ ", " ++ pyReprArr rest
/-- Comma-joined `key: value` reprs of a mapping's fields. -/
def pyReprObj : JObj → String
  | .nil => ""
  | .cons k v .nil => pyReprStr k ++ ": " ++ pyRepr v
  | .cons k v rest => pyReprStr k ++ ": " ++ pyRepr v ++ ", " ++ pyReprObj rest
end

/-- Name of the Python type of a value (as it appears in e.g.
`AttributeError` messages).  YAML integers are Python `int`, other
numbers `float`. -/
def pyTypeName : JValue → String
  | .jnull => "NoneType"
  | .jbool _ => "bool"
  | .jnum q => if q.den = 1 then "int" else "float"
  | .jstr _ => "str"
  | .jarr _ => "list"
  | .jobj _ => "dict"

mutual
/-- Python `==` on JSON values: numbers by value, arrays pointwise, dicts
by key set with equal values (order-insensitive, as for Python dicts). -/
def JValue.beq : JValue → JValue → Bool
  | .jnull, .jnull => true
  | .jbool a, .jbool b => a == b
  | .jnum a, .jnum b => a == b
  | .jstr a, .jstr b => a == b
  | .jarr a, .jarr b => JArr.beq a b
  | .jobj a, .jobj b => JObj.sameLen a b && JObj.subFields a b
  | _, _ => false
def JArr.beq : JArr → JArr → Bool
  | .nil, .nil => true
  | .cons v r, .cons v' r' => JValue.beq v v' && JArr.beq r r'
  | _, _ => false
/-- Same number of fields. -/
def JObj.sameLen : JObj → JObj → Bool
  | .nil, .nil => true
  | .cons _ _ r, .cons _ _ r' => JObj.sameLen r r'
  | _, _ => false
/-- Every field of the first dict appears in the second with an equal
value. -/
def JObj.subFields : JObj → JObj → Bool
  | .nil, _ => true
  | .cons k v r, other =>
    (match JObj.lookup other k with
     | some v' => JValue.beq v v'
     | none => false) && JObj.subFields r other
end

/-! ### Structural phase: `PLAN_DOCUMENT_SCHEMA` (schema.py) checked the way
`jsonschema.Draft202012Validator.iter_errors` does.

Each violation is a pair of the instance path (property names and array
indices rendered as strings) and the library's message.  Keywords are
evaluated in the schema's key order; object/array/string/number keywords
other than `type` are silently skipped on instances of the wrong type,
exactly as in the library's guarded validators.  Message texts follow
jsonschema 4.2x. -/

/-- One structural violation: instance path plus message. -/
abbrev ErrEntry := List String × String

/-- Push a path component in front of each violation (the library's
`descend`). -/
def underPath (k : String) (es : List ErrEntry) : List ErrEntry :=
  es.map (fun e => (k :: e.1, e.2))

/-- The single `type`-keyword violation. -/
def typeErr (v : JValue) (ty : String) : List ErrEntry :=
  [([], pyRepr v ++ " is not of type " ++ pyReprStr ty)]

/-- Violations of `required`: one per missing property, in the schema's
list order. -/
def requiredErrors (req : List String) (fs : JObj) : List ErrEntry :=
  (req.filter (fun k => !(fs.keys.contains k))).map
    (fun k => ([], pyReprStr k ++ " is a required property"))

/-- Byte-wise (code-point) string order, Python's `<=` on `str`. -/
def charListLe : List Char → List Char → Bool
  | [], _ => true
  | _ :: _, [] => false
  | c :: cs, d :: ds => if c < d then true else if d < c then false else charListLe cs ds

def strLe (a b : String) : Bool := charListLe a.data b.data

def insertAsc (x : String) : List String → List String
  | [] => [x]
  | y :: ys => if strLe x y then x :: y :: ys else y :: insertAsc x ys

/-- Ascending code-point sort, Python's `sorted` on strings. -/
def sortAsc (l : List String) : List String := l.foldr insertAsc []

/-- Violation of `additionalProperties: false`: a single error at the
object itself naming the unexpected keys, deduplicated and sorted, with
`was`/`were` agreement — the library's exact phrasing. -/
def additionalPropsError (allowed : List String) (fs : JObj) : List ErrEntry :=
  let extras := sortAsc ((fs.keys.filter (fun k => !(allowed.contains k))).dedup)
  if extras.isEmpty then []
  else
    [([], "Additional properties are not allowed (" ++
          String.intercalate ", " (extras.map pyReprStr) ++
          (if extras.length = 1 then " was" else " were") ++ " unexpected)")]

/-- Check a present property `k` of `fs` with `f`, descending the path;
absent properties yield nothing. -/
def propErrs (fs : JObj) (k : String) (f : JValue → List ErrEntry) : List ErrEntry :=
  match fs.lookup k with
  | some v => underPath k (f v)
  | none => []

/-- Schema `{"type": "string"}` (the `version`, `description` fields). -/
def checkStringOnly (v : JValue) : List ErrEntry :=
  match v with
  | .jstr _ => []
  | _ => typeErr v "string"

/-- Schema `{"type": "object"}` (the `metadata` field). -/
def checkObjectOnly (v : JValue) : List ErrEntry :=
  match v with
  | .jobj _ => []
  | _ => typeErr v "object"

/-- Schema `{"type": "string", "minLength": n}`.  jsonschema phrases a
`minLength: 1` violation as `should be non-empty`, larger bounds as
`is too short`. -/
def checkStrMin (minLen : Nat) (v : JValue) : List ErrEntry :=
  match v with
  | .jstr s =>
    if s.data.length < minLen then
      [([], pyReprStr s ++ (if minLen = 1 then " should be non-empty" else " is too short"))]
    else []
  | _ => typeErr v "string"

/-- Schema `{"type": "number", "minimum": 0}` (`monthly`, `price_delta`). -/
def checkNonNegNumber (v : JValue) : List ErrEntry :=
  match v with
  | .jnum q => if q < 0 then [([], pyReprNum q ++ " is less than the minimum of 0")] else []
  | _ => typeErr v "number"

/-- Python's `re.search` of `^[A-Z]{3}$`: three ASCII uppercase letters,
optionally followed by one trailing newline (an unanchored-`$` match). -/
def currencyPatternMatch (s : String) : Bool :=
  let core := fun (t : List Char) => t.length = 3 && t.all (fun c => 'A' ≤ c && c ≤ 'Z')
  core s.data ||
    (match s.data.getLast? with
     | some c => c = '\n' && core s.data.dropLast
     | none => false)

/-- Schema for `currency`: `{"type": "string", "pattern": "^[A-Z]{3}$"}`. -/
def checkCurrency (v : JValue) : List ErrEntry :=
  match v with
  | .jstr s =>
    if currencyPatternMatch s then []
    else [([], pyReprStr s ++ " does not match " ++ pyReprStr "^[A-Z]\x7b3\x7d$")]
  | _ => typeErr v "string"

/-- Schema for `device_limit`: `{"type": "integer", "minimum": 0,
"maximum": 8}`.  A number with a fractional part fails only `type`
(2020-12 counts integral floats as integers); `minimum`/`maximum` run on
any number. -/
def checkDeviceLimit (v : JValue) : List ErrEntry :=
  match v with
  | .jnum q =>
    (if q.den = 1 then [] else typeErr v "integer") ++
    (if q < 0 then [([], pyReprNum q ++ " is less than the minimum of 0")] else []) ++
    (if 8 < q then [([], pyReprNum q ++ " is greater than the maximum of 8")] else [])
  | _ => typeErr v "integer"

/-- Schema for `price`: required `monthly`, `currency`; properties in that
order. -/
def checkPrice (v : JValue) : List ErrEntry :=
  match v with
  | .jobj fs =>
    requiredErrors ["monthly", "currency"] fs ++
    propErrs fs "monthly" checkNonNegNumber ++
    propErrs fs "currency" checkCurrency
  | _ => typeErr v "object"

/-- Schema for one add-on: required `name`, `price_delta`; properties
`name` (non-empty string), `price_delta` (non-negative number),
`description` (string). -/
def checkAddOn (v : JValue) : List ErrEntry :=
  match v with
  | .jobj fs =>
    requiredErrors ["name", "price_delta"] fs ++
    propErrs fs "name" (checkStrMin 1) ++
    propErrs fs "price_delta" checkNonNegNumber ++
    propErrs fs "description" checkStringOnly
  | _ => typeErr v "object"

/-- Python `==`-based duplicate detection, the library's `uniqueItems`
check. -/
def hasDupJ : List JValue → Bool
  | [] => false
  | x :: xs => xs.any (fun y => JValue.beq x y) || hasDupJ xs

/-- Per-index `items` violations of an array. -/
def itemsErrors (f : JValue → List ErrEntry) (xs : List JValue) : List ErrEntry :=
  (xs.enum.map (fun p => underPath (toString p.1) (f p.2))).flatten

/-- Schema for `add_ons`: array of add-ons with unique items (keyword
order: `type`, `items`, `uniqueItems`). -/
def checkAddOns (v : JValue) : List ErrEntry :=
  match v with
  | .jarr xs =>
    itemsErrors checkAddOn xs.toList ++
    (if hasDupJ xs.toList then [([], pyRepr v ++ " has non-unique elements")] else [])
  | _ => typeErr v "array"

/-- Allowed plan properties (`additionalProperties: false`). -/
def planKeys : List String :=
  ["id", "name", "region", "tier", "price", "device_limit", "video_quality",
   "description", "add_ons"]

/-- Schema for one plan: keyword order `type`, `required`, `properties`
(in the schema's property order), `additionalProperties`. -/
def checkPlan (v : JValue) : List ErrEntry :=
  match v with
  | .jobj fs =>
    requiredErrors ["id", "name", "region", "tier", "price", "device_limit",
                    "video_quality"] fs ++
    propErrs fs "id" (checkStrMin 1) ++
    propErrs fs "name" (checkStrMin 1) ++
    propErrs fs "region" (checkStrMin 1) ++
    propErrs fs "tier" (checkStrMin 1) ++
    propErrs fs "price" checkPrice ++
    propErrs fs "device_limit" checkDeviceLimit ++
    propErrs fs "video_quality" (checkStrMin 2) ++
    propErrs fs "description" checkStringOnly ++
    propErrs fs "add_ons" checkAddOns ++
    additionalPropsError planKeys fs
  | _ => typeErr v "object"

/-- Schema for `plans`: keyword order `type`, `minItems: 1`, `items`,
`uniqueItems` (a `minItems: 1` violation is phrased `should be
non-empty`). -/
def checkPlans (v : JValue) : List ErrEntry :=
  match v with
  | .jarr xs =>
    (if xs.toList.length < 1 then [([], pyRepr v ++ " should be non-empty")] else []) ++
    itemsErrors checkPlan xs.toList ++
    (if hasDupJ xs.toList then [([], pyRepr v ++ " has non-unique elements")] else [])
  | _ => typeErr v "array"

/-- All structural violations of a payload against `PLAN_DOCUMENT_SCHEMA`,
in the library's order: `type`, `required` (`plans`), `properties`
(`version`, `metadata`, `plans`), `additionalProperties`. -/
def iterErrors (v : JValue) : List ErrEntry :=
  match v with
  | .jobj fs =>
    requiredErrors ["plans"] fs ++
    propErrs fs "version" checkStringOnly ++
    propErrs fs "metadata" checkObjectOnly ++
    propErrs fs "plans" checkPlans ++
    additionalPropsError ["version", "metadata", "plans"] fs
  | _ => typeErr v "object"

/-- Separator-joined list of strings, Python `sep.join(l)`. -/
def joinSep (sep : String) : List String → String
  | [] => ""
  | [x] => x
  | x :: xs => x ++ sep ++ joinSep sep xs

/-- `PlanValidator._format_error`: the path components joined by `" > "`,
prepended as `"<path>: "` unless the joined path is empty (Python string
truthiness), then the message. -/
def format_error (path : List String) (message : String) : String :=
  let p := joinSep " > " path
  (if p = "" then "" else p ++ ": ") ++ message

/-- The structural phase of `PlanValidator.validate`: each violation of
`iter_errors` rendered through `_format_error`. -/
def structuralErrors (v : JValue) : List String :=
  (iterErrors v).map (fun e => format_error e.1 e.2)

/-! ### Typed models (models.py) and `PlanValidator` (validator.py). -/

/-- `models.Price`. -/
structure Price where
  monthly : Rat
  currency : String
deriving DecidableEq

/-- `models.AddOn`. -/
structure AddOn where
  name : String
  price_delta : Rat
  description : Option String
deriving DecidableEq

/-- `models.Plan` (the `tier` field stores the value after the
`normalize_tier` validator, i.e. title-cased). -/
structure Plan where
  id : String
  name : String
  region : String
  tier : String
  price : Price
  device_limit : Nat
  video_quality : String
  add_ons : List AddOn
  description : Option String
deriving DecidableEq

/-- `models.PlanDocument`. -/
structure PlanDocument where
  version : String
  plans : List Plan
  metadata : Option JObj

/-- ASCII lower-casing, Python `str.lower` on the repository's data. -/
def pyLower (s : String) : String := String.mk (s.data.map Char.toLower)

/-- ASCII upper-casing, Python `str.upper` on the repository's data. -/
def pyUpper (s : String) : String := String.mk (s.data.map Char.toUpper)

/-- One step of Python `str.title`: a cased character is upper-cased after
a non-alphabetic character and lower-cased otherwise. -/
def pyTitleAux : List Char → Bool → List Char
  | [], _ => []
  | c :: cs, prevAlpha =>
    (if c.isAlpha then (if prevAlpha then c.toLower else c.toUpper) else c) ::
      pyTitleAux cs c.isAlpha

/-- Python `str.title`, the `normalize_tier` pydantic validator. -/
def pyTitle (s : String) : String := String.mk (pyTitleAux s.data false)

/-- Pydantic coercion of a field declared `str` with length bounds.
(Coercions from non-string values are not modelled: every call site is
behind the JSON-Schema phase, which has already forced a string.) -/
def asStrLen (lo : Nat) (hi : Option Nat) : JValue → Option String
  | .jstr s =>
    if lo ≤ s.data.length && (match hi with | some h => decide (s.data.length ≤ h) | none => true)
    then some s else none
  | _ => none

/-- `Price.model_validate`: `monthly: float ≥ 0`,
`currency: str` of length exactly 3. -/
def toPrice : JValue → Option Price
  | .jobj fs => do
    let mv ← fs.lookup "monthly"
    let m ← (match mv with | .jnum q => if 0 ≤ q then some q else none | _ => none)
    let c ← (fs.lookup "currency").bind (asStrLen 3 (some 3))
    pure ⟨m, c⟩
  | _ => none

/-- Optional `str` field: absent and `None` both give `none`. -/
def asOptStr (fs : JObj) (k : String) : Option (Option String) :=
  match fs.lookup k with
  | none => some none
  | some .jnull => some none
  | some (.jstr s) => some (some s)
  | some _ => none

/-- `AddOn.model_validate`. -/
def toAddOn : JValue → Option AddOn
  | .jobj fs => do
    let n ← (fs.lookup "name").bind (asStrLen 1 none)
    let dv ← fs.lookup "price_delta"
    let d ← (match dv with | .jnum q => if 0 ≤ q then some q else none | _ => none)
    let descr ← asOptStr fs "description"
    pure ⟨n, d, descr⟩
  | _ => none

/-- `Plan.model_validate`: required fields, bounds, the integer range of
`device_limit`, the `add_ons` default `[]`, and `normalize_tier`. -/
def toPlan : JValue → Option Plan
  | .jobj fs => do
    let id ← (fs.lookup "id").bind (asStrLen 1 none)
    let name ← (fs.lookup "name").bind (asStrLen 1 none)
    let region ← (fs.lookup "region").bind (asStrLen 1 none)
    let tier ← (fs.lookup "tier").bind (asStrLen 1 none)
    let price ← (fs.lookup "price").bind toPrice
    let dv ← fs.lookup "device_limit"
    let d ← (match dv with
             | .jnum q => if q.den = 1 ∧ 0 ≤ q.num ∧ q.num ≤ 8 then some q.num.toNat else none
             | _ => none)
    let vq ← (fs.lookup "video_quality").bind (asStrLen 2 none)
    let addOns ← (match fs.lookup "add_ons" with
                  | none => some []
                  | some (.jarr xs) => xs.toList.mapM toAddOn
                  | some _ => none)
    let descr ← asOptStr fs "description"
    pure ⟨id, name, region, pyTitle tier, price, d, vq, addOns, descr⟩
  | _ => none

/-- `PlanDocument.model_validate`: `version` defaults to `"1.0"`,
`metadata` is an optional mapping, extra payload keys are ignored (the
models do not forbid extras; the schema phase does). -/
def toPlanDocument : JValue → Option PlanDocument
  | .jobj fs => do
    let version ← (match fs.lookup "version" with
                   | none => some "1.0"
                   | some (.jstr s) => some s
                   | some _ => none)
    let pv ← fs.lookup "plans"
    let plans ← (match pv with | .jarr xs => xs.toList.mapM toPlan | _ => none)
    let metadata ← (match fs.lookup "metadata" with
                    | none => some none
                    | some .jnull => some none
                    | some (.jobj m) => some (some m)
                    | some _ => none)
    pure ⟨version, plans, metadata⟩
  | _ => none

/-- `PlanValidator._cross_field_rules`, one loop iteration per plan with
the two running membership sets and the accumulated errors and warnings. -/
def crossAux : List Plan → List String → List (String × String) →
    List String → List String → List String × List String
  | [], _, _, errs, warns => (errs, warns)
  | p :: rest, seenIds, pairs, errs, warns =>
    let errs := errs ++ (if p.id ∈ seenIds
      then ["Duplicate plan id " ++ String.mk [squote] ++ p.id ++ String.mk [squote] ++ "."]
      else [])
    let seenIds := p.id :: seenIds
    let pr := (pyLower p.region, pyLower p.tier)
    let warns := warns ++ (if pr ∈ pairs
      then ["Duplicate region/tier combination for " ++ p.region ++ " " ++ p.tier ++ "."]
      else [])
    let pairs := pr :: pairs
    let t := pyLower p.tier
    let errs := errs ++ (if t = "basic" ∧ p.device_limit > 1
      then ["Basic tier plan " ++ String.mk [squote] ++ p.name ++ String.mk [squote] ++
            " exceeds 1 device limit."]
      else [])
    let errs := errs ++ (if t = "mobile" ∧ p.device_limit > 1
      then ["Mobile tier plan " ++ String.mk [squote] ++ p.name ++ String.mk [squote] ++
            " exceeds mobile device policy."]
      else [])
    let warns := warns ++ (if (t = "premium" ∨ t = "uhd") ∧
        ¬ (pyUpper p.video_quality = "UHD" ∨ pyUpper p.video_quality = "4K")
      then ["Premium tier plan " ++ String.mk [squote] ++ p.name ++ String.mk [squote] ++
            " should advertise UHD or 4K video quality."]
      else [])
    let warns := warns ++ (if p.price.monthly = 0 ∧ p.add_ons.isEmpty
      then ["Plan " ++ String.mk [squote] ++ p.name ++ String.mk [squote] ++
            " is free with no add-ons; confirm that is intentional."]
      else [])
    crossAux rest seenIds pairs errs warns

/-- `PlanValidator._cross_field_rules` on a typed document's plans. -/
def cross_field_rules (plans : List Plan) : List String × List String :=
  crossAux plans [] [] [] []

/-- `PlanValidator.validate`: the structural phase, short-circuiting with
no warnings on any structural error; otherwise `PlanDocument.model_validate`
followed by the cross-field rules.  A pydantic failure there is an
uncaught exception, represented as `.error`. -/
def validate (payload : JValue) : Except String (List String × List String) :=
  let errors := structuralErrors payload
  if errors.isEmpty then
    match toPlanDocument payload with
    | some document => .ok (cross_field_rules document.plans)
    | none => .error "pydantic.ValidationError"
  else .ok (errors, [])

/-! ### Generation pipeline (pipeline.py). -/

/-- `models.PlanGenerationConfig` (defaults 3 / 3 / none / true). -/
structure PlanGenerationConfig where
  max_retries : Nat := 3
  examples_to_include : Nat := 3
  schema_path : Option String := none
  enable_ab_testing : Bool := true

/-- `models.PlanGenerationResult`. -/
structure PlanGenerationResult where
  prompt : String
  yaml_output : String
  document : PlanDocument
  validation_warnings : List String

/-- How one `generate_document` call ends towards its caller:
a returned result, a raised `PlanGenerationError`, or any other uncaught
Python exception (message only). -/
inductive Outcome where
  | ok (result : PlanGenerationResult)
  | planError (msg : String)
  | pyError (msg : String)

/-- One scripted step of the external boundary: either
`llm.generate` raises (message of the exception), or it returns `raw`
whose fence-stripped text `yaml.safe_load` then parses to `parsed`
(a YAML error message or a value).  The parse outcome is part of the
script because the YAML parser is an external collaborator; everything
downstream of it is embedded from the source. -/
inductive LLMResponse where
  | raises (msg : String)
  | returns (raw : String) (parsed : Except String JValue)

/-- `PlanGenerationPipeline._parse_yaml` downstream of `yaml.safe_load`:
a parser failure or a non-mapping value becomes `({}, error)`; a mapping
is returned with no error. -/
def parse_yaml : Except String JValue → JObj × Option String
  | .error e => (.nil, some ("YAML parse error: " ++ e))
  | .ok v =>
    match v with
    | .jobj fs => (fs, none)
    | _ => (.nil, some "Model output must be a YAML mapping/object.")

/-- Lines 76-77 of pipeline.py:
`payload.setdefault("metadata", {}).update(metadata)`, executed only when
the caller metadata is truthy.  When the payload's `metadata` value is not
a dict, `.update` does not exist on it and an `AttributeError` escapes. -/
def mergeMetadata (metadata : JObj) (payload : JObj) : Except String JObj :=
  if metadata.isEmpty then .ok payload
  else
    match payload.lookup "metadata" with
    | none => .ok (payload.set "metadata" (.jobj (JObj.update .nil metadata)))
    | some (.jobj m) => .ok (payload.set "metadata" (.jobj (m.update metadata)))
    | some v =>
      .error (String.mk [squote] ++ pyTypeName v ++ String.mk [squote] ++
              " object has no attribute " ++ String.mk [squote] ++ "update" ++
              String.mk [squote])

/-- Python `str.strip`: drop leading and trailing whitespace. -/
def pyWs (c : Char) : Bool :=
  c = ' ' || c = '\t' || c = '\n' || c = '\r' || c = Char.ofNat 11 || c = Char.ofNat 12

def pyStrip (s : String) : String :=
  String.mk (((s.data.dropWhile pyWs).reverse.dropWhile pyWs).reverse)

/-- The fixed schema cheat-sheet section of `_compose_prompt`. -/
def schemaCheatSheet : String :=
  "\n---\nYAML Schema (simplified view):\n" ++
  "plans:\n" ++
  "  - id: string\n" ++
  "    name: string\n" ++
  "    region: string\n" ++
  "    tier: string\n" ++
  "    price:\n" ++
  "      monthly: number\n" ++
  "      currency: ISO-4217 code\n" ++
  "    device_limit: integer <= 8\n" ++
  "    video_quality: string\n" ++
  "    add_ons:\n" ++
  "      - name: string\n" ++
  "        price_delta: number\n"

/-- The closing section of a repair prompt (attempt `> 1` with truthy
prior output): previous raw output stripped, the bulleted error list
(`"- Invalid output."` if the list is empty), and the revision
instruction. -/
def repairSection (prior_yaml : String) (validation_errors : List String) : String :=
  let error_block :=
    if validation_errors.isEmpty then "- Invalid output."
    else joinSep "\n" (validation_errors.map (fun e => "- " ++ e))
  "\n---\nPrevious YAML (attempt failed validation):\n" ++
  pyStrip prior_yaml ++ "\n" ++
  "\nValidation feedback:\n" ++
  error_block ++ "\n" ++
  "Revise the YAML to resolve the issues."

/-- The generic first-attempt closing section. -/
def freshSection : String := "\nDraft fresh YAML plan proposals adhering to the schema."

/-- `PlanGenerationPipeline._compose_prompt`: the fixed sections, then the
repair section when `attempt > 1 and prior_yaml` (Python truthiness: some
non-empty string), else the generic instruction; all joined by newlines. -/
def compose_prompt (system_prompt user_prompt retrieval_context : String)
    (attempt : Nat) (prior_yaml : Option String) (validation_errors : List String) : String :=
  let sections :=
    [pyStrip system_prompt,
     "\n---\nUser brief:\n" ++ pyStrip user_prompt,
     "\n---\n" ++ pyStrip retrieval_context,
     schemaCheatSheet]
  let closing :=
    if attempt > 1 ∧ prior_yaml.getD "" ≠ "" then
      repairSection (prior_yaml.getD "") validation_errors
    else freshSection
  joinSep "\n" (sections ++ [closing])

/-- Python `str(list_of_strings)`: bracketed comma-joined reprs, the
formatting of the error list inside the exhaustion message. -/
def pyReprStrList (l : List String) : String :=
  "[" ++ String.intercalate ", " (l.map pyReprStr) ++ "]"

/-- The `PlanGenerationError` message raised on attempt exhaustion. -/
def exhaustMsg (attempts : Nat) (validation_errors : List String) : String :=
  "Unable to generate a valid plan after " ++ toString attempts ++ " attempts: " ++
  pyReprStrList validation_errors

/-- The retry loop of `generate_document` (lines 58-91 of pipeline.py).
`remaining` is the number of loop iterations left (`attempts - attempt + 1`
at entry), making the recursion structural; `attempt` is the 1-based
Python loop variable; `prior` and `valErrors` are the carried repair
state; `calls` counts LLM invocations made so far.  The scripted client is
indexed by the attempt number and, like `MockLLMClient`, does not depend
on the composed prompt (which is `compose_prompt` of the carried state). -/
def genLoop (metadata : JObj) (llm : Nat → LLMResponse) (user_prompt : String)
    (attempts : Nat) :
    Nat → Nat → Option String → List String → Nat → Outcome × Nat
  | 0, _, _, valErrors, calls => (.planError (exhaustMsg attempts valErrors), calls)
  | remaining + 1, attempt, _prior, _valErrors, calls =>
    match llm attempt with
    | .raises e => (.planError ("LLM request failed: " ++ e), calls + 1)
    | .returns raw parsed =>
      match parse_yaml parsed with
      | (_, some parseError) =>
        genLoop metadata llm user_prompt attempts remaining (attempt + 1)
          (some raw) [parseError] (calls + 1)
      | (payload, none) =>
        match mergeMetadata metadata payload with
        | .error exc => (.pyError exc, calls + 1)
        | .ok payload' =>
          match validate (.jobj payload') with
          | .error exc => (.pyError exc, calls + 1)
          | .ok (validation_errors, warnings) =>
            if validation_errors.isEmpty then
              match toPlanDocument (.jobj payload') with
              | some document =>
                (.ok ⟨user_prompt, raw, document, warnings⟩, calls + 1)
              | none => (.pyError "pydantic.ValidationError", calls + 1)
            else
              genLoop metadata llm user_prompt attempts remaining (attempt + 1)
                (some raw) validation_errors (calls + 1)

/-- Line 50 of pipeline.py, `max_attempts or self.config.max_retries`:
Python `or` falls through on the falsy `None` and `0`. -/
def effectiveAttempts (max_attempts : Option Nat) (config : PlanGenerationConfig) : Nat :=
  match max_attempts with
  | none => config.max_retries
  | some n => if n = 0 then config.max_retries else n

/-- `PlanGenerationPipeline.generate_document`: the attempt budget, then
the retry loop started at attempt 1 with empty repair state.  Returns the
outcome towards the caller together with the number of LLM calls made. -/
def generate_document (config : PlanGenerationConfig) (user_prompt : String)
    (metadata : JObj) (llm : Nat → LLMResponse) (max_attempts : Option Nat) :
    Outcome × Nat :=
  let attempts := effectiveAttempts max_attempts config
  genLoop metadata llm user_prompt attempts attempts 1 none [] 0

/-- Classification of one scripted step as "fails to parse or validates
with at least one error": returns that attempt's recorded error list, and
`none` for a raising step, a crashing merge, a pydantic crash, or a
validation success. -/
def respInvalid (metadata : JObj) : LLMResponse → Option (List String)
  | .raises _ => none
  | .returns _ parsed =>
    match parse_yaml parsed with
    | (_, some parseError) => some [parseError]
    | (payload, none) =>
      match mergeMetadata metadata payload with
      | .error _ => none
      | .ok payload' =>
        match validate (.jobj payload') with
        | .error _ => none
        | .ok (validation_errors, _) =>
          if validation_errors.isEmpty then none else some validation_errors

/-! ### Example retriever (retrieval.py). -/

instance : Inhabited JValue := ⟨.jnull⟩

instance : Inhabited JArr := ⟨.nil⟩

instance : Inhabited JObj := ⟨.nil⟩

/-- `retrieval.PlanExample` (the corpus record). -/
structure PlanExample where
  id : String
  title : String
  region : String
  tier : String
  devices : Int
  price : JObj
  video_quality : String
  add_ons : List JObj
  notes : String
deriving Inhabited

/-- Is `c` an ASCII letter (the class `[a-zA-Z]`). -/
def isAsciiLetter (c : Char) : Bool :=
  ('a' ≤ c && c ≤ 'z') || ('A' ≤ c && c ≤ 'Z')

/-- Accumulator pass splitting a character list into maximal ASCII-letter
runs, the behavior of `re.findall("[a-zA-Z]+", text)`. -/
def letterRuns : List Char → List Char → List String → List String
  | [], cur, acc => if cur.isEmpty then acc.reverse else (String.mk cur.reverse :: acc).reverse
  | c :: cs, cur, acc =>
    if isAsciiLetter c then letterRuns cs (c :: cur) acc
    else if cur.isEmpty then letterRuns cs [] acc
    else letterRuns cs [] (String.mk cur.reverse :: acc)

/-- `ExampleRetriever._tokenize`: lower-cased maximal letter runs. -/
def tokenize (text : String) : List String :=
  (letterRuns text.data [] []).map pyLower

/-- The text a corpus example is indexed and scored on:
`" ".join([title, region, tier, notes])`. -/
def exampleText (ex : PlanExample) : String :=
  ex.title ++ " " ++ ex.region ++ " " ++ ex.tier ++ " " ++ ex.notes

/-- Tokens of one example (the index building tokenization; `set`
membership is list membership). -/
def exampleTokens (ex : PlanExample) : List String := tokenize (exampleText ex)

/-- The inverted-index posting list of a token: the indices of the
examples containing it (ascending, the order generated by
`_build_index`). -/
def postingsOf (examples : List PlanExample) (t : String) : List Nat :=
  (List.range examples.length).filter
    (fun i => (exampleTokens (examples.getD i default)).contains t)

/-- The union of the posting lists of the query tokens
(`candidate_indices.update(...)` over each token); iteration over the
resulting set of small ints is modelled ascending. -/
def candidateIndices (examples : List PlanExample) (tokens : List String) : List Nat :=
  (List.range examples.length).filter
    (fun i => tokens.any (fun t => (exampleTokens (examples.getD i default)).contains t))

/-- Stable descending sort by score (Python `list.sort(key=..., reverse=True)`). -/
def insertDesc (x : Rat × PlanExample) :
    List (Rat × PlanExample) → List (Rat × PlanExample)
  | [] => [x]
  | y :: ys => if y.1 < x.1 then x :: y :: ys else y :: insertDesc x ys

def sortDesc (l : List (Rat × PlanExample)) : List (Rat × PlanExample) :=
  l.foldr insertDesc []

/-- `ExampleRetriever.retrieve`.  The floating-point scoring function
`_score_example` (`1 + log1p(occurrences)` per matched token plus
`0.1 × devices`) is real-valued and is abstracted as the parameter
`score`; no claim depends on it, and the fallback paths never invoke it. -/
def retrieve (score : PlanExample → List String → Rat)
    (examples : List PlanExample) (query : String) (top_k : Nat) : List PlanExample :=
  if pyStrip query = "" then examples.take top_k
  else
    let tokens := tokenize query
    let cand := candidateIndices examples tokens
    if cand.isEmpty then examples.take top_k
    else
      let scored := cand.map (fun i =>
        (score (examples.getD i default) tokens, examples.getD i default))
      ((sortDesc scored).take top_k).map (fun p => p.2)

/-! ### A/B justification (pipeline.py lines 119-140). -/

/-- Python `format(x, ".2f")` on the embedded rational: two fraction
digits, rounding to nearest (ties away from zero; Python rounds the
nearest binary double, which agrees on the repository's cent-valued
prices). -/
def fmt2 (q : Rat) : String :=
  let cents : Int := round (q * 100)
  let sign := if cents < 0 then "-" else ""
  let n := cents.natAbs
  sign ++ toString (n / 100) ++ "." ++
    (let fr := n % 100
     (if fr < 10 then "0" else "") ++ toString fr)

/-- `PlanGenerationPipeline._fallback_justification`: the deterministic
two-bullet text from the minimum and maximum monthly price of the
document's plans and the first plan's currency.  On an empty plans list
Python's `min` raises `ValueError`, represented as `.error`. -/
def fallback_justification (result : PlanGenerationResult) : Except String String :=
  match result.document.plans with
  | [] => .error "min() arg is an empty sequence"
  | p :: ps =>
    let min_price := ps.foldl (fun a pl => min a pl.price.monthly) p.price.monthly
    let max_price := ps.foldl (fun a pl => max a pl.price.monthly) p.price.monthly
    .ok ("• Mix of tiers from affordable to premium to cover audience breadth.\n" ++
         "• Pricing spectrum spans " ++ fmt2 min_price ++ " to " ++ fmt2 max_price ++
         " " ++ p.price.currency ++ ".")

/-- `PlanGenerationPipeline._generate_justification`: the secondary LLM
call's outcome is scripted; a returned text is stripped, any exception is
caught and answered by the deterministic fallback (whose own `ValueError`,
if any, escapes the `except` block). -/
def generate_justification (result : PlanGenerationResult)
    (llmResponse : Except String String) : Except String String :=
  match llmResponse with
  | .ok text => .ok (pyStrip text)
  | .error _ => fallback_justification result

/-! ### Spec-comparison definitions (used only to state claims). -/

/-- Modelled from the spec's words for claim C9: each violation rendered
as `"<dotted-path>: <message>"` with the path prefix omitted at the
document root. -/
def dottedFormat (path : List String) (message : String) : String :=
  (if path.isEmpty then "" else String.intercalate "." path ++ ": ") ++ message

/-- Modelled from the spec's words for claim C5: a repair block carrying
the previous attempt's raw output verbatim plus the error list as
bullets. -/
def repairBlockSpec (prior_raw : String) (validation_errors : List String) : String :=
  "\n---\nPrevious YAML (attempt failed validation):\n" ++
  prior_raw ++ "\n" ++
  "\nValidation feedback:\n" ++
  joinSep "\n" (validation_errors.map (fun e => "- " ++ e)) ++ "\n" ++
  "Revise the YAML to resolve the issues."

/-- The error list held by the loop after `remaining` further all-invalid
attempts starting at `attempt`, given it currently holds `errs`. -/
def lastErrsAfter (metadata : JObj) (llm : Nat → LLMResponse)
    (attempt : Nat) (remaining : Nat) (errs : List String) : List String :=
  match remaining with
  | 0 => errs
  | r + 1 => (respInvalid metadata (llm (attempt + r))).getD []

/-! ### Helper lemmas. -/

/-- Single-motive induction over mappings (the mutual recursor needs the
sibling motives instantiated trivially). -/
theorem JObj.induct (motive : JObj → Prop) (hnil : motive .nil)
    (hcons : ∀ (k : String) (v : JValue) (rest : JObj), motive rest → motive (.cons k v rest)) :
    ∀ o, motive o :=
  @JObj.rec (fun _ => True) (fun _ => True) motive
    trivial (fun _ => trivial) (fun _ => trivial) (fun _ => trivial)
    (fun _ _ => trivial) (fun _ _ => trivial)
    trivial (fun _ _ _ _ => trivial)
    hnil (fun k v rest _ h => hcons k v rest h)

theorem JObj.lookup_set_self (d : JObj) (k : String) (v : JValue) :
    (d.set k v).lookup k = some v := by
  induction d using JObj.induct with
  | hnil => simp [JObj.set, JObj.lookup]
  | hcons k0 v0 rest ih =>
    by_cases h : k0 = k
    · simp [JObj.set, JObj.lookup, h]
    · simp [JObj.set, JObj.lookup, h, ih]

theorem JObj.lookup_set_ne (d : JObj) (k' k : String) (v : JValue) (h : k' ≠ k) :
    (d.set k' v).lookup k = d.lookup k := by
  induction d using JObj.induct with
  | hnil => simp [JObj.set, JObj.lookup, h]
  | hcons k0 v0 rest ih =>
    by_cases h0 : k0 = k'
    · subst h0
      simp [JObj.set, JObj.lookup, h]
    · simp only [JObj.set, if_neg h0, JObj.lookup]
      by_cases h1 : k0 = k
      · simp [h1]
      · simp [h1, ih]

theorem JObj.lookup_update_not_mem (u d : JObj) (k : String) (h : k ∉ u.keys) :
    (d.update u).lookup k = d.lookup k := by
  induction u using JObj.induct generalizing d with
  | hnil => simp [JObj.update]
  | hcons k0 v0 rest ih =>
    simp only [JObj.keys, List.mem_cons, not_or] at h
    simp only [JObj.update]
    rw [ih _ h.2, JObj.lookup_set_ne _ _ _ _ (fun e => h.1 e.symm)]

theorem JObj.lookup_update_mem (u d : JObj) (k : String) (v : JValue)
    (hnd : u.keys.Nodup) (h : u.lookup k = some v) :
    (d.update u).lookup k = some v := by
  induction u using JObj.induct generalizing d with
  | hnil => simp [JObj.lookup] at h
  | hcons k0 v0 rest ih =>
    simp only [JObj.keys, List.nodup_cons] at hnd
    simp only [JObj.lookup] at h
    by_cases h0 : k0 = k
    · subst h0
      rw [if_pos rfl] at h
      cases h
      simp only [JObj.update]
      rw [JObj.lookup_update_not_mem _ _ _ hnd.1, JObj.lookup_set_self]
    · rw [if_neg h0] at h
      simp only [JObj.update]
      exact ih _ hnd.2 h

theorem joinSep_append_last (sep : String) (l : List String) (c : String) :
    c.data <:+ (joinSep sep (l ++ [c])).data := by
  induction l with
  | nil => simp [joinSep]
  | cons x xs ih =>
    have hstep : joinSep sep (x :: (xs ++ [c])) = x ++ sep ++ joinSep sep (xs ++ [c]) := by
      cases xs <;> simp [joinSep]
    rw [List.cons_append, hstep]
    refine ih.trans ?_
    rw [String.data_append]
    exact List.suffix_append _ _

theorem joinSep_cons_ne_empty (p : String) (rest : List String) (hp : p ≠ "") :
    joinSep " > " (p :: rest) ≠ "" := by
  cases rest with
  | nil => simpa [joinSep] using hp
  | cons y ys =>
    intro e
    have h1 : (joinSep " > " (p :: y :: ys)).length = 0 := by rw [e]; rfl
    have h2 : joinSep " > " (p :: y :: ys) = p ++ " > " ++ joinSep " > " (y :: ys) := rfl
    rw [h2, String.length_append, String.length_append] at h1
    have h3 : (" > " : String).length = 3 := rfl
    omega

/-- If the scripted step at `attempt` is invalid (parse failure or
validation errors), one loop iteration advances to the next attempt
carrying that step's raw output and error list and one more LLM call. -/
theorem genLoop_step_invalid (metadata : JObj) (llm : Nat → LLMResponse)
    (user_prompt : String) (attempts r attempt : Nat) (prior : Option String)
    (errs errs' : List String) (calls : Nat)
    (hop : respInvalid metadata (llm attempt) = some errs') :
    ∃ raw, genLoop metadata llm user_prompt attempts (r + 1) attempt prior errs calls =
      genLoop metadata llm user_prompt attempts r (attempt + 1) (some raw) errs' (calls + 1) := by
  rcases hllm : llm attempt with e0 | ⟨raw, parsed⟩
  · rw [hllm] at hop
    simp [respInvalid] at hop
  · refine ⟨raw, ?_⟩
    rw [hllm] at hop
    simp only [respInvalid] at hop
    rcases hp : parse_yaml parsed with ⟨fs, op⟩
    rcases op with _ | perr
    · rw [hp] at hop
      rcases hm : mergeMetadata metadata fs with exc | fs'
      · simp [hm] at hop
      · rcases hv : validate (.jobj fs') with m | vw
        · simp [hm, hv] at hop
        · rcases vw with ⟨ve, w⟩
          cases hve : ve.isEmpty
          · simp only [hm, hv, hve] at hop
            simp only [Bool.false_eq_true, if_false, Option.some.injEq] at hop
            subst hop
            simp only [genLoop, hllm, hp, hm, hv, hve]
            simp [Bool.false_eq_true]
          · simp [hm, hv, hve] at hop
    · rw [hp] at hop
      simp only [Option.some.injEq] at hop
      subst hop
      simp only [genLoop, hllm, hp]

/-- Relating the carried error list across one invalid step. -/
theorem lastErrsAfter_step (metadata : JObj) (llm : Nat → LLMResponse)
    (attempt r : Nat) (errs errs' : List String)
    (hop : respInvalid metadata (llm attempt) = some errs') :
    lastErrsAfter metadata llm (attempt + 1) r errs' =
      lastErrsAfter metadata llm attempt (r + 1) errs := by
  cases r with
  | zero => simp [lastErrsAfter, hop]
  | succ r' =>
    simp only [lastErrsAfter]
    rw [show attempt + 1 + r' = attempt + (r' + 1) by omega]

/-- A run of all-invalid scripted steps exhausts the loop: it performs one
LLM call per remaining iteration and ends in the exhaustion
`PlanGenerationError` built from the final attempt's error list. -/
theorem genLoop_all_invalid (metadata : JObj) (llm : Nat → LLMResponse)
    (user_prompt : String) (attempts : Nat) :
    ∀ (remaining attempt : Nat) (prior : Option String) (errs : List String) (calls : Nat),
      (∀ i, i < remaining → respInvalid metadata (llm (attempt + i)) ≠ none) →
      genLoop metadata llm user_prompt attempts remaining attempt prior errs calls =
        (.planError (exhaustMsg attempts (lastErrsAfter metadata llm attempt remaining errs)),
         calls + remaining) := by
  intro remaining
  induction remaining with
  | zero =>
    intro attempt prior errs calls _
    simp [genLoop, lastErrsAfter]
  | succ r ih =>
    intro attempt prior errs calls h
    have h0 : respInvalid metadata (llm attempt) ≠ none := by
      have := h 0 (Nat.succ_pos r)
      rwa [Nat.add_zero] at this
    rcases hop : respInvalid metadata (llm attempt) with _ | errs'
    · exact absurd hop h0
    obtain ⟨raw, hstep⟩ := genLoop_step_invalid metadata llm user_prompt attempts r attempt
      prior errs errs' calls hop
    rw [hstep]
    have htail : ∀ i, i < r → respInvalid metadata (llm (attempt + 1 + i)) ≠ none := by
      intro i hi
      have := h (i + 1) (by omega)
      rwa [show attempt + (i + 1) = attempt + 1 + i by omega] at this
    rw [ih (attempt + 1) (some raw) errs' (calls + 1) htail,
        lastErrsAfter_step metadata llm attempt r errs errs' hop,
        show calls + 1 + r = calls + (r + 1) by omega]

/-- A transport failure at attempt `attempt + k`, after `k` invalid
attempts, stops the loop at once with the transport `PlanGenerationError`
and exactly `k + 1` LLM calls. -/
theorem genLoop_transport (metadata : JObj) (llm : Nat → LLMResponse)
    (user_prompt : String) (attempts : Nat) (e : String) :
    ∀ (k remaining attempt : Nat) (prior : Option String) (errs : List String) (calls : Nat),
      k + 1 ≤ remaining →
      (∀ i, i < k → respInvalid metadata (llm (attempt + i)) ≠ none) →
      llm (attempt + k) = .raises e →
      genLoop metadata llm user_prompt attempts remaining attempt prior errs calls =
        (.planError ("LLM request failed: " ++ e), calls + (k + 1)) := by
  intro k
  induction k with
  | zero =>
    intro remaining attempt prior errs calls hrem h hfail
    rcases remaining with _ | r
    · omega
    rw [Nat.add_zero] at hfail
    simp [genLoop, hfail]
  | succ k ih =>
    intro remaining attempt prior errs calls hrem h hfail
    rcases remaining with _ | r
    · omega
    have h0 : respInvalid metadata (llm attempt) ≠ none := by
      have := h 0 (by omega)
      rwa [Nat.add_zero] at this
    rcases hop : respInvalid metadata (llm attempt) with _ | errs'
    · exact absurd hop h0
    obtain ⟨raw, hstep⟩ := genLoop_step_invalid metadata llm user_prompt attempts r attempt
      prior errs errs' calls hop
    rw [hstep]
    have htail : ∀ i, i < k → respInvalid metadata (llm (attempt + 1 + i)) ≠ none := by
      intro i hi
      have := h (i + 1) (by omega)
      rwa [show attempt + (i + 1) = attempt + 1 + i by omega] at this
    rw [ih r (attempt + 1) (some raw) errs' (calls + 1) (by omega) htail
        (by rwa [show attempt + 1 + k = attempt + (k + 1) by omega]),
        show calls + 1 + (k + 1) = calls + (k + 1 + 1) by omega]

/-- The loop never loses LLM calls: the final count is at least the
running count. -/
theorem genLoop_calls_le (metadata : JObj) (llm : Nat → LLMResponse)
    (user_prompt : String) (attempts : Nat) :
    ∀ (remaining attempt : Nat) (prior : Option String) (errs : List String) (calls : Nat),
      calls ≤ (genLoop metadata llm user_prompt attempts remaining attempt prior errs calls).2 := by
  intro remaining
  induction remaining with
  | zero => intro attempt prior errs calls; simp [genLoop]
  | succ r ih =>
    intro attempt prior errs calls
    rcases hllm : llm attempt with e0 | ⟨raw, parsed⟩
    · simp [genLoop, hllm]
    rcases hp : parse_yaml parsed with ⟨fs, op⟩
    rcases op with _ | perr
    · rcases hm : mergeMetadata metadata fs with exc | fs'
      · simp [genLoop, hllm, hp, hm]
      rcases hv : validate (.jobj fs') with m | vw
      · simp [genLoop, hllm, hp, hm, hv]
      rcases vw with ⟨ve, w⟩
      cases hve : ve.isEmpty
      · simp only [genLoop, hllm, hp, hm, hv, hve, Bool.false_eq_true, if_false]
        exact le_trans (by omega) (ih (attempt + 1) (some raw) ve (calls + 1))
      · rcases hd : toPlanDocument (.jobj fs') with _ | doc
        · simp [genLoop, hllm, hp, hm, hv, hve, hd]
        · simp [genLoop, hllm, hp, hm, hv, hve, hd]
    · simp only [genLoop, hllm, hp]
      exact le_trans (by omega) (ih (attempt + 1) (some raw) [perr] (calls + 1))

/-- With at least one iteration left, the loop makes at least one LLM
call. -/
theorem genLoop_calls_pos (metadata : JObj) (llm : Nat → LLMResponse)
    (user_prompt : String) (attempts : Nat)
    (remaining attempt : Nat) (prior : Option String) (errs : List String) (calls : Nat)
    (hrem : 1 ≤ remaining) :
    calls + 1 ≤ (genLoop metadata llm user_prompt attempts remaining attempt prior errs calls).2 := by
  rcases remaining with _ | r
  · omega
  rcases hllm : llm attempt with e0 | ⟨raw, parsed⟩
  · simp [genLoop, hllm]
  rcases hp : parse_yaml parsed with ⟨fs, op⟩
  rcases op with _ | perr
  · rcases hm : mergeMetadata metadata fs with exc | fs'
    · simp [genLoop, hllm, hp, hm]
    rcases hv : validate (.jobj fs') with m | vw
    · simp [genLoop, hllm, hp, hm, hv]
    rcases vw with ⟨ve, w⟩
    cases hve : ve.isEmpty
    · simp only [genLoop, hllm, hp, hm, hv, hve, Bool.false_eq_true, if_false]
      exact genLoop_calls_le metadata llm user_prompt attempts r (attempt + 1) (some raw) ve (calls + 1)
    · rcases hd : toPlanDocument (.jobj fs') with _ | doc
      · simp [genLoop, hllm, hp, hm, hv, hve, hd]
      · simp [genLoop, hllm, hp, hm, hv, hve, hd]
  · simp only [genLoop, hllm, hp]
    exact genLoop_calls_le metadata llm user_prompt attempts r (attempt + 1) (some raw) [perr] (calls + 1)

theorem lastErrsAfter_one (metadata : JObj) (llm : Nat → LLMResponse)
    (n : Nat) (errs : List String) (h : 1 ≤ n) :
    lastErrsAfter metadata llm 1 n errs = (respInvalid metadata (llm n)).getD [] := by
  rcases n with _ | r
  · omega
  · simp only [lastErrsAfter]
    rw [Nat.add_comm]

/-- C1: when every scripted response within the attempt budget fails to
parse or validates with at least one error (and no LLM invocation
raises), `generate_document` performs exactly the attempt budget
(`max_attempts or config.max_retries`) LLM calls — never fewer, never
more — and raises the generation-failed `PlanGenerationError` whose
message carries the attempt count and the final attempt's error list. -/
theorem generate_document_exhaustion (config : PlanGenerationConfig)
    (user_prompt : String) (metadata : JObj) (llm : Nat → LLMResponse)
    (max_attempts : Option Nat)
    (hpos : 1 ≤ effectiveAttempts max_attempts config)
    (h : ∀ i, i < effectiveAttempts max_attempts config →
      respInvalid metadata (llm (i + 1)) ≠ none) :
    generate_document config user_prompt metadata llm max_attempts =
      (.planError (exhaustMsg (effectiveAttempts max_attempts config)
        ((respInvalid metadata (llm (effectiveAttempts max_attempts config))).getD [])),
       effectiveAttempts max_attempts config) := by
  have h' : ∀ i, i < effectiveAttempts max_attempts config →
      respInvalid metadata (llm (1 + i)) ≠ none := by
    intro i hi
    rw [Nat.add_comm 1 i]
    exact h i hi
  have hrun := genLoop_all_invalid metadata llm user_prompt
    (effectiveAttempts max_attempts config) (effectiveAttempts max_attempts config)
    1 none [] 0 h'
  simp only [generate_document]
  rw [hrun, lastErrsAfter_one metadata llm _ [] hpos, Nat.zero_add]

/-- Witness for C1: a two-attempt budget with both scripted responses
parsing to a non-mapping is exhausted after exactly two calls, raising
the message with the attempt count and the final parse-error list. -/
theorem generate_document_exhaustion_witness :
    generate_document ⟨2, 3, none, true⟩ "Design plans" .nil
      (fun _ => .returns "nope" (.ok (.jstr "nope"))) none =
      (.planError ("Unable to generate a valid plan after 2 attempts: " ++
        "['Model output must be a YAML mapping/object.']"), 2) := by
  have := generate_document_exhaustion ⟨2, 3, none, true⟩ "Design plans" .nil
    (fun _ => .returns "nope" (.ok (.jstr "nope"))) none (by decide) (by decide)
  exact this

/-- C3: if, on attempt `n` of `generate_document` (reached because the
earlier attempts all failed to parse or validate), the LLM call raises,
the whole call aborts immediately with a `PlanGenerationError` wrapping
the underlying cause's message and consumes no further attempts: exactly
`n` LLM calls are made, whatever the remaining budget was — only parse
and validation failures are retried, never transport failures. -/
theorem generate_document_transport_abort (config : PlanGenerationConfig)
    (user_prompt : String) (metadata : JObj) (llm : Nat → LLMResponse)
    (max_attempts : Option Nat) (n : Nat) (e : String)
    (h1 : 1 ≤ n) (h2 : n ≤ effectiveAttempts max_attempts config)
    (hprev : ∀ i, i + 1 < n → respInvalid metadata (llm (i + 1)) ≠ none)
    (hfail : llm n = .raises e) :
    generate_document config user_prompt metadata llm max_attempts =
      (.planError ("LLM request failed: " ++ e), n) := by
  have hprev' : ∀ i, i < n - 1 → respInvalid metadata (llm (1 + i)) ≠ none := by
    intro i hi
    rw [Nat.add_comm 1 i]
    exact hprev i (by omega)
  have hfail' : llm (1 + (n - 1)) = .raises e := by
    rwa [show 1 + (n - 1) = n by omega]
  have hrun := genLoop_transport metadata llm user_prompt
    (effectiveAttempts max_attempts config) e (n - 1)
    (effectiveAttempts max_attempts config) 1 none [] 0 (by omega) hprev' hfail'
  simp only [generate_document]
  rw [hrun, show 0 + (n - 1 + 1) = n by omega]

/-- Witness for C3: a first invalid response followed by a raising second
call aborts a three-attempt budget after exactly two calls with the
transport error message. -/
theorem generate_document_transport_abort_witness :
    generate_document ⟨3, 3, none, true⟩ "Design plans" .nil
      (fun i => if i = 2 then .raises "boom" else .returns "nope" (.ok (.jstr "nope")))
      none =
      (.planError "LLM request failed: boom", 2) := by
  have := generate_document_transport_abort ⟨3, 3, none, true⟩ "Design plans" .nil
    (fun i => if i = 2 then .raises "boom" else .returns "nope" (.ok (.jstr "nope")))
    none 2 "boom" (by decide) (by decide)
    (by intro i hi; have h0 : i = 0 := (by omega); subst h0; decide) rfl
  exact this

/-- C2: on any payload with at least one structural (JSON-Schema)
violation, `validate` returns exactly those formatted structural errors
together with an empty warnings list; it short-circuits before the
pydantic conversion, so no cross-field business rule runs (in particular
no duplicate-id error can be reported). -/
theorem validate_short_circuit (payload : JValue)
    (h : structuralErrors payload ≠ []) :
    validate payload = .ok (structuralErrors payload, []) := by
  have h' : (structuralErrors payload).isEmpty = false := by
    cases hh : structuralErrors payload
    · exact absurd hh h
    · rfl
  simp only [validate, h', Bool.false_eq_true, if_false]

/-- Witness for C2: a payload whose two plans duplicate the id `x` but
fail the schema (missing required fields) yields exactly the structural
errors, empty warnings, and no duplicate-id report. -/
theorem validate_short_circuit_witness :
    validate (.jobj (.cons "plans" (.jarr (.cons
        (.jobj (.cons "id" (.jstr "x") .nil))
        (.cons (.jobj (.cons "id" (.jstr "x") (.cons "name" (.jstr "y") .nil))) .nil))) .nil)) =
      .ok (structuralErrors (.jobj (.cons "plans" (.jarr (.cons
        (.jobj (.cons "id" (.jstr "x") .nil))
        (.cons (.jobj (.cons "id" (.jstr "x") (.cons "name" (.jstr "y") .nil))) .nil))) .nil)),
        []) ∧
    "Duplicate plan id 'x'." ∉ structuralErrors (.jobj (.cons "plans" (.jarr (.cons
        (.jobj (.cons "id" (.jstr "x") .nil))
        (.cons (.jobj (.cons "id" (.jstr "x") (.cons "name" (.jstr "y") .nil))) .nil))) .nil)) := by
  exact ⟨validate_short_circuit _ (by decide), by decide⟩

/-- C9 counterexample: the first violation of a payload whose only plan is
missing `name` sits at path `plans, 0` and is rendered with the separator
`" > "`, which differs from the dotted-path rendering the claim
describes. -/
theorem format_error_not_dotted :
    (structuralErrors (.jobj (.cons "plans"
        (.jarr (.cons (.jobj (.cons "id" (.jstr "x") .nil)) .nil)) .nil))).head? =
      some "plans > 0: 'name' is a required property" ∧
    format_error ["plans", "0"] "'name' is a required property" ≠
      dottedFormat ["plans", "0"] "'name' is a required property" := by
  exact ⟨by decide, by decide⟩

/-- C9 amended: every structural violation becomes exactly one formatted
string, the message alone at the document root, and otherwise the path
components joined by `" > "` (not `"."`), then `": "`, then the message. -/
theorem structural_error_format :
    (∀ payload, structuralErrors payload =
      (iterErrors payload).map (fun e => format_error e.1 e.2)) ∧
    (∀ message, format_error [] message = message) ∧
    (∀ path message, path ≠ [] → "" ∉ path →
      format_error path message = joinSep " > " path ++ ": " ++ message) := by
  refine ⟨fun _ => rfl, fun _ => rfl, ?_⟩
  intro path message hne hmem
  rcases path with _ | ⟨p, rest⟩
  · exact absurd rfl hne
  · have hp : p ≠ "" := fun e => hmem (e ▸ List.mem_cons_self p rest)
    simp only [format_error]
    rw [if_neg (joinSep_cons_ne_empty p rest hp)]

/-- Witness for C9 (amended): a three-component path is rendered with the
`" > "` separator. -/
theorem structural_error_format_witness :
    format_error ["plans", "0", "id"] "msg" = "plans > 0 > id: msg" := by
  rw [structural_error_format.2.2 ["plans", "0", "id"] "msg" (by decide) (by decide)]
  decide

/-- C4 (code-bug exhibit): with caller metadata supplied and a response
parsing to a mapping whose `metadata` key holds a non-dict value, the
merge step calls `.update` on a Python `int`; the resulting
`AttributeError` — not a `PlanGenerationError` and not a result — escapes
to the caller after a single LLM call, so `generate_document` does not
always end in a result or a single `PlanGenerationError`. -/
theorem generate_document_attribute_error :
    generate_document ⟨3, 3, none, true⟩ "Design plans"
      (.cons "source" (.jstr "caller") .nil)
      (fun _ => .returns "metadata: 5" (.ok (.jobj (.cons "metadata" (.jnum 5) .nil))))
      none =
      (.pyError "'int' object has no attribute 'update'", 1) := by
  rfl

set_option maxRecDepth 100000 in
/-- C5 counterexample: the claim's repair block (previous raw output
verbatim plus bullets) is absent from the composed prompt in two
reachable attempt-2 situations: an empty previous output switches the
prompt to the generic instruction, and a previous output with leading
whitespace appears only stripped, never verbatim. -/
theorem compose_prompt_repair_counterexample :
    ¬ ((repairBlockSpec "" ["e"]).data <:+:
        (compose_prompt "S" "U" "R" 2 (some "") ["e"]).data) ∧
    ¬ ((repairBlockSpec "  x: 1" ["e"]).data <:+:
        (compose_prompt "S" "U" "R" 2 (some "  x: 1") ["e"]).data) := by
  exact ⟨by decide, by decide⟩

/-- C5 amended: for attempt `n > 1` with a non-empty previous raw output
and a non-empty error list, the composed prompt ends with the repair
block built from the previous output stripped of surrounding whitespace
plus the errors as a bulleted list (after a parse failure the recorded
list is the single parse-error message, so the sole bullet is that
message); for `n == 1` — or an empty previous output — the prompt instead
ends with the generic draft-fresh-YAML instruction. -/
theorem compose_prompt_repair (system_prompt user_prompt retrieval_context : String)
    (attempt : Nat) (prior_yaml : Option String) (validation_errors : List String) :
    ((attempt ≤ 1 ∨ prior_yaml.getD "" = "") →
      freshSection.data <:+
        (compose_prompt system_prompt user_prompt retrieval_context attempt prior_yaml
          validation_errors).data) ∧
    (∀ raw, 1 < attempt → prior_yaml = some raw → raw ≠ "" → validation_errors ≠ [] →
      (repairBlockSpec (pyStrip raw) validation_errors).data <:+
        (compose_prompt system_prompt user_prompt retrieval_context attempt prior_yaml
          validation_errors).data) := by
  constructor
  · intro hcond
    have hneg : ¬ (attempt > 1 ∧ prior_yaml.getD "" ≠ "") := by
      rcases hcond with h | h
      · exact fun hc => absurd hc.1 (by omega)
      · exact fun hc => absurd h hc.2
    simp only [compose_prompt, if_neg hneg]
    exact joinSep_append_last "\n" _ freshSection
  · intro raw hgt hsome hraw herrs
    subst hsome
    have hpos : attempt > 1 ∧ (some raw).getD "" ≠ "" := ⟨hgt, by simpa using hraw⟩
    have hblock : repairSection ((some raw).getD "") validation_errors =
        repairBlockSpec (pyStrip raw) validation_errors := by
      have hie : validation_errors.isEmpty = false := by
        cases hh : validation_errors
        · exact absurd hh herrs
        · rfl
      simp only [repairSection, repairBlockSpec, hie, Bool.false_eq_true, if_false,
        Option.getD]
    simp only [compose_prompt, if_pos hpos, hblock]
    exact joinSep_append_last "\n" _ _

/-- Witness for C5 (amended): a first-attempt prompt ends with the generic
instruction, and an attempt-2 prompt with prior output `"x: 1\n"` and two
errors ends with the stripped-output repair block. -/
theorem compose_prompt_repair_witness :
    freshSection.data <:+ (compose_prompt "S" "U" "R" 1 none []).data ∧
    (repairBlockSpec (pyStrip "x: 1\n") ["e1", "e2"]).data <:+
      (compose_prompt "S" "U" "R" 2 (some "x: 1\n") ["e1", "e2"]).data := by
  constructor
  · exact (compose_prompt_repair "S" "U" "R" 1 none []).1 (Or.inl (by decide))
  · exact (compose_prompt_repair "S" "U" "R" 2 (some "x: 1\n") ["e1", "e2"]).2
      "x: 1\n" (by decide) rfl (by decide) (by decide)

/-- C6: when caller metadata is given (non-empty, Python-truthy) and the
parsed payload carries a metadata mapping, the merge step that
`generate_document` runs before the validator replaces that mapping by
its dict-update with the caller metadata: every caller key — in
particular every key present in both mappings — ends up bound to the
caller's value, while keys the caller does not supply keep the
model-produced value. -/
theorem metadata_update_semantics (metadata payload m : JObj)
    (h1 : metadata.isEmpty = false)
    (h2 : payload.lookup "metadata" = some (.jobj m))
    (h3 : metadata.keys.Nodup) :
    mergeMetadata metadata payload =
      .ok (payload.set "metadata" (.jobj (m.update metadata))) ∧
    (∀ k v, metadata.lookup k = some v → (m.update metadata).lookup k = some v) ∧
    (∀ k, k ∉ metadata.keys → (m.update metadata).lookup k = m.lookup k) := by
  refine ⟨?_, ?_, ?_⟩
  · simp only [mergeMetadata, h1, Bool.false_eq_true, if_false, h2]
  · intro k v hk
    exact JObj.lookup_update_mem metadata m k v h3 hk
  · intro k hk
    exact JObj.lookup_update_not_mem metadata m k hk

/-- Witness for C6: caller metadata `{a: "caller"}` merged into a payload
whose metadata is `{a: "model", b: 2}` overwrites `a` and keeps `b`. -/
theorem metadata_update_semantics_witness :
    mergeMetadata (.cons "a" (.jstr "caller") .nil)
      (.cons "metadata"
        (.jobj (.cons "a" (.jstr "model") (.cons "b" (.jnum 2) .nil))) .nil) =
      .ok (.cons "metadata"
        (.jobj (.cons "a" (.jstr "caller") (.cons "b" (.jnum 2) .nil))) .nil) ∧
    (JObj.update (.cons "a" (.jstr "model") (.cons "b" (.jnum 2) .nil))
        (.cons "a" (.jstr "caller") .nil)).lookup "a" = some (.jstr "caller") := by
  have h := metadata_update_semantics
    (.cons "a" (.jstr "caller") .nil)
    (.cons "metadata"
      (.jobj (.cons "a" (.jstr "model") (.cons "b" (.jnum 2) .nil))) .nil)
    (.cons "a" (.jstr "model") (.cons "b" (.jnum 2) .nil))
    rfl rfl (by decide)
  exact ⟨h.1, h.2.1 "a" (.jstr "caller") rfl⟩

/-- C7: for any query none of whose tokens matches a posting of the
inverted index — including the empty and whitespace-only queries —
`retrieve` returns exactly the first `top_k` corpus examples in original
load order; hence, with a non-empty corpus and `top_k ≥ 1`, the retriever
never returns an empty result on such queries. -/
theorem retrieve_no_match_fallback (score : PlanExample → List String → Rat)
    (examples : List PlanExample) (query : String) (top_k : Nat)
    (h : ∀ t ∈ tokenize query, postingsOf examples t = []) :
    retrieve score examples query top_k = examples.take top_k ∧
    (examples ≠ [] → 1 ≤ top_k → retrieve score examples query top_k ≠ []) := by
  have hcand : candidateIndices examples (tokenize query) = [] := by
    rw [candidateIndices, List.filter_eq_nil_iff]
    intro i hi
    simp only [List.any_eq_true, not_exists, not_and]
    intro t ht hc
    have hpost := h t ht
    rw [postingsOf, List.filter_eq_nil_iff] at hpost
    exact absurd hc (by simpa using hpost i hi)
  have hmain : retrieve score examples query top_k = examples.take top_k := by
    by_cases hq : pyStrip query = ""
    · simp [retrieve, hq]
    · simp [retrieve, hq, hcand]
  refine ⟨hmain, ?_⟩
  intro hne hk
  rw [hmain]
  rcases examples with _ | ⟨a, l⟩
  · exact absurd rfl hne
  rcases top_k with _ | k
  · omega
  · simp

/-- Witness for C7: a one-token query matching nothing in a two-example
corpus falls back to the first example (`top_k = 1`) and is non-empty. -/
theorem retrieve_no_match_fallback_witness :
    retrieve (fun _ _ => 0)
      [⟨"1", "Family UHD", "US", "Premium", 4, .nil, "UHD", [], "for families"⟩,
       ⟨"2", "Solo", "EU", "Basic", 1, .nil, "HD", [], "for singles"⟩]
      "zzz" 1 =
      [⟨"1", "Family UHD", "US", "Premium", 4, .nil, "UHD", [], "for families"⟩] ∧
    retrieve (fun _ _ => 0)
      [⟨"1", "Family UHD", "US", "Premium", 4, .nil, "UHD", [], "for families"⟩,
       ⟨"2", "Solo", "EU", "Basic", 1, .nil, "HD", [], "for singles"⟩]
      "zzz" 1 ≠ [] := by
  have h := retrieve_no_match_fallback (fun _ _ => 0)
    [⟨"1", "Family UHD", "US", "Premium", 4, .nil, "UHD", [], "for families"⟩,
     ⟨"2", "Solo", "EU", "Basic", 1, .nil, "HD", [], "for singles"⟩]
    "zzz" 1 (by decide)
  exact ⟨h.1, h.2 (List.cons_ne_nil _ _) (by decide)⟩

/-- C8: for a result whose plans list is non-empty (as the schema's
`minItems: 1` guarantees for every validated result), the deterministic
fallback justification — computed only from the plans' minimum and
maximum monthly price and the first plan's currency, with no LLM
involvement — is total, and a failing secondary LLM call is answered by
exactly that fallback text: the failure is never surfaced to the
caller. -/
theorem justification_fallback (result : PlanGenerationResult) (e : String)
    (h : result.document.plans ≠ []) :
    generate_justification result (.error e) = fallback_justification result ∧
    (∃ s, fallback_justification result = .ok s) := by
  refine ⟨rfl, ?_⟩
  rcases hp : result.document.plans with _ | ⟨p, ps⟩
  · exact absurd hp h
  · exact ⟨_, by rw [fallback_justification, hp]⟩

/-- Witness for C8: on a one-plan result a failing justification call
returns the deterministic price-range fallback. -/
theorem justification_fallback_witness :
    generate_justification
      ⟨"p", "y", ⟨"1.0", [⟨"id1", "Basic", "US", "Basic", ⟨9, "USD"⟩, 1, "HD", [], none⟩],
        none⟩, []⟩ (.error "boom") =
      fallback_justification
        ⟨"p", "y", ⟨"1.0", [⟨"id1", "Basic", "US", "Basic", ⟨9, "USD"⟩, 1, "HD", [], none⟩],
          none⟩, []⟩ ∧
    (∃ s, fallback_justification
        ⟨"p", "y", ⟨"1.0", [⟨"id1", "Basic", "US", "Basic", ⟨9, "USD"⟩, 1, "HD", [], none⟩],
          none⟩, []⟩ = .ok s) := by
  exact justification_fallback
    ⟨"p", "y", ⟨"1.0", [⟨"id1", "Basic", "US", "Basic", ⟨9, "USD"⟩, 1, "HD", [], none⟩],
      none⟩, []⟩ "boom" (List.cons_ne_nil _ _)

/-- C10: an omitted, `None`, or `0` `max_attempts` silently falls back to
the configured default budget — the Python expression
`max_attempts or self.config.max_retries` — so a call with
`max_attempts = 0` does not fail and behaves exactly like an omitted
argument; with the documented `max_retries ≥ 1` invariant the call never
performs zero attempts: at least one LLM call is always made. -/
theorem max_attempts_default (config : PlanGenerationConfig)
    (user_prompt : String) (metadata : JObj) (llm : Nat → LLMResponse)
    (h : 1 ≤ config.max_retries) :
    effectiveAttempts none config = config.max_retries ∧
    effectiveAttempts (some 0) config = config.max_retries ∧
    generate_document config user_prompt metadata llm (some 0) =
      generate_document config user_prompt metadata llm none ∧
    1 ≤ (generate_document config user_prompt metadata llm (some 0)).2 := by
  refine ⟨rfl, rfl, rfl, ?_⟩
  have hpos : 1 ≤ effectiveAttempts (some 0) config := by
    simpa [effectiveAttempts] using h
  have hc := genLoop_calls_pos metadata llm user_prompt
    (effectiveAttempts (some 0) config) (effectiveAttempts (some 0) config)
    1 none [] 0 hpos
  simpa [generate_document] using hc

/-- Witness for C10: with the default configuration, `max_attempts = 0`
uses the default budget 3, behaves like the omitted argument, and makes
at least one LLM call. -/
theorem max_attempts_default_witness :
    effectiveAttempts none ⟨3, 3, none, true⟩ = 3 ∧
    effectiveAttempts (some 0) ⟨3, 3, none, true⟩ = 3 ∧
    generate_document ⟨3, 3, none, true⟩ "p" .nil (fun _ => .raises "down") (some 0) =
      generate_document ⟨3, 3, none, true⟩ "p" .nil (fun _ => .raises "down") none ∧
    1 ≤ (generate_document ⟨3, 3, none, true⟩ "p" .nil (fun _ => .raises "down") (some 0)).2 := by
  exact max_attempts_default ⟨3, 3, none, true⟩ "p" .nil (fun _ => .raises "down") (by decide)
